/-
Verification of the ruwai_check_v2.py field-service script against its
specification.  The script's data model and decision logic are shallowly
embedded: Python dictionaries become association lists (preserving insertion
order, as Python dictionaries do), the straight-line effectful sections become
functions producing explicit event traces, and an uncaught Python exception is
modelled by truncating the trace at the raising statement.
-/
import Mathlib

set_option autoImplicit false

namespace RuwaiCheck

universe u

/-! ## Registry (INPUT PARAMETERS section, source lines 45-73) -/

/-- A network map: association from datalogger serial number to station name,
mirroring one of the per-network Python dictionaries. -/
abbrev NetworkMap := List (String × String)

/-- The registry of installed networks: association from network name to its
network map, mirroring the `networks` Python dictionary.  Python dictionaries
iterate in insertion order, which the list order models. -/
abbrev Registry := List (String × NetworkMap)

/-- Source lines 45-51. -/
def SBK_stations : NetworkMap :=
  [("00006", "OBS"), ("0000B", "PIL"), ("00009", "MOR"),
   ("00008", "MIT"), ("00004", "STO")]

/-- Source lines 53-57. -/
def KITZ_stations : NetworkMap :=
  [("00007", "BH1"), ("0000A", "BH2"), ("00005", "BH3")]

/-- Source lines 59-66. -/
def NOW_stations : NetworkMap :=
  [("0000F", "NUKL"), ("0000G", "ZACP"), ("0000H", "ZACR"),
   ("0000K", "PATW"), ("0000J", "PATE"), ("0000I", "PATT")]

/-- Source lines 69-73. -/
def networks : Registry :=
  [("SBK_stations", SBK_stations),
   ("KITZ_stations", KITZ_stations),
   ("NOW_stations", NOW_stations)]

/-- Python dictionary access: `sn in m` tests key membership and `m[sn]`
retrieves the value; keys of a Python dictionary are unique, so first-match
association lookup is a faithful model. -/
def dictGet (m : NetworkMap) (k : String) : Option String :=
  match m with
  | [] => none
  | (k2, v) :: rest => if k = k2 then some v else dictGet rest k

/-- The serial-number lookup loop (source lines 156-163): `network` and
`station` start at the sentinel values and every network whose map contains the
serial overwrites them.  The loop body has no `break`, so when several
networks contain the serial the LAST match in iteration order wins. -/
def lookupStation (registry : Registry) (sn : String) : String × String :=
  registry.foldl
    (fun acc nm =>
      match dictGet nm.2 sn with
      | some st => (nm.1, st)
      | none => acc)
    ("unknown_network", "unknown_station")

/-- All (network, station) pairs matching a serial, in registry order. -/
def registryMatches (registry : Registry) (sn : String) : List (String × String) :=
  registry.filterMap (fun nm => (dictGet nm.2 sn).map (fun st => (nm.1, st)))

theorem lookup_foldl_eq (sn : String) (l : Registry) (init : String × String) :
    l.foldl
      (fun acc nm =>
        match dictGet nm.2 sn with
        | some st => (nm.1, st)
        | none => acc)
      init
      = (registryMatches l sn).getLastD init := by
  induction l generalizing init with
  | nil => rfl
  | cons hd tl ih =>
    cases h : dictGet hd.2 sn with
    | none =>
      simp only [List.foldl_cons, registryMatches, List.filterMap_cons, h, Option.map_none, Option.map_none']
      exact ih init
    | some st =>
      simp only [List.foldl_cons, registryMatches, List.filterMap_cons, h, Option.map_some, Option.map_some',
        List.getLastD_cons]
      exact ih (hd.1, st)

/-- Characterization of the lookup loop: the result is the last matching pair,
and the sentinel pair when no network map contains the serial. -/
theorem lookupStation_eq_getLastD (registry : Registry) (sn : String) :
    lookupStation registry sn
      = (registryMatches registry sn).getLastD ("unknown_network", "unknown_station") :=
  lookup_foldl_eq sn registry _

theorem registryMatches_eq_nil (registry : Registry) (sn : String)
    (h : ∀ p ∈ registry, dictGet p.2 sn = none) :
    registryMatches registry sn = [] := by
  induction registry with
  | nil => rfl
  | cons hd tl ih =>
    simp only [registryMatches, List.filterMap_cons, h hd (List.mem_cons_self hd tl),
      Option.map_none, Option.map_none']
    exact ih (fun p hp => h p (List.mem_cons_of_mem hd hp))

/-! ## Archive path construction (source lines 182-210) -/

/-- Source line 182: the service-run directory name `sr` + today's date stamp
in YYYYMMDD form. -/
def srDir (dateStamp : String) : String := "sr" ++ dateStamp

/-- Source lines 183-193: the station directory name.  The base name
`station + "_sn_" + sn` gets the suffix `_1_BEX` when the operator answered
`1` (before the sd card exchange), `_2_AEX` when the operator answered `2`
(after the exchange), and no suffix for any other answer. -/
def stDir (station sn option : String) : String :=
  let base := station ++ "_sn_" ++ sn
  if option = "1" then base ++ "_1_BEX"
  else if option = "2" then base ++ "_2_AEX"
  else base

/-- Source lines 196-205: the archive destination assembled by
pathlib.Path(cwd, year, network, sr_dir, st_dir), whose components are joined
with "/". -/
def localDest (cwd year network station sn option dateStamp : String) : String :=
  cwd ++ "/" ++ year ++ "/" ++ network ++ "/" ++ srDir dateStamp ++ "/"
    ++ stDir station sn option

/-- Source lines 208-210: the log destination is the `var_log` subdirectory of
the archive destination. -/
def logDestOf (dest : String) : String := dest ++ "/var_log"

/-! ## Log harvesting (source lines 215-218) -/

/-- Python `f.split(".")[0]`: the segment of the name before the first dot,
which is the whole name when it has no dot. -/
def firstSegment (f : String) : String :=
  String.mk (f.data.takeWhile (fun c => !(c == '.')))

/-- The selection comprehension of source line 216: keep the remote directory
entries whose first dot-delimited segment equals "ruwai". -/
def logsFilter (all_logs : List String) : List String :=
  all_logs.filter (fun f => firstSegment f == "ruwai")

/-- The download loop of source lines 217-218: for each selected entry, a
get_file transfer from /var/log/ to the log destination, preserving the
name.  The list gives the (remote, local) path pairs in order. -/
def harvest (all_logs : List String) (log_dest : String) : List (String × String) :=
  (logsFilter all_logs).map (fun f => ("/var/log/" ++ f, log_dest ++ "/" ++ f))

/-! ## Status checks (source lines 230-300) -/

/-- Python str.strip as applied by int(): surrounding ASCII whitespace is
removed from the character list. -/
def stripChars (cs : List Char) : List Char :=
  ((cs.dropWhile Char.isWhitespace).reverse.dropWhile Char.isWhitespace).reverse

/-- A nonempty all-digit character run parsed as a natural number, otherwise
none. -/
def digitsToNat (cs : List Char) : Option Nat :=
  if cs.isEmpty then none
  else if cs.all Char.isDigit then
    some (cs.foldl (fun acc c => 10 * acc + (c.toNat - 48)) 0)
  else none

/-- Modelling of the Python builtin int() on a string: surrounding whitespace
is stripped, an optional sign precedes a nonempty run of decimal digits, and
anything else raises ValueError, modelled as none.  (Python additionally
accepts underscore digit grouping, which du output never contains and which is
not modelled.) -/
def pyInt (s : String) : Option Int :=
  match stripChars s.data with
  | '-' :: rest => (digitsToNat rest).map (fun n => -(n : Int))
  | '+' :: rest => (digitsToNat rest).map (fun n => (n : Int))
  | cs => (digitsToNat cs).map (fun n => (n : Int))

/-- Whether `pat` occurs as a contiguous segment of `l` (what an unanchored
grep containment of a literal means). -/
def containsSeg (l pat : List Char) : Bool :=
  l.tails.any (fun t => pat.isPrefixOf t)

/-- Whether the grep pattern `a.*b` matches the line: an occurrence of the
literal `a` followed, at or after its end, by an occurrence of the literal
`b`. -/
def containsThen (l a b : List Char) : Bool :=
  l.tails.any (fun t => a.isPrefixOf t && containsSeg (t.drop a.length) b)

/-- The literal text matched by the escaped grep fragment built on source
lines 257, 269 and 294 from the ruwaicom process id: the text
`ruwaicom[` + pid + `]`. -/
def pidMarker (pid : String) : List Char := ("ruwaicom[" ++ pid ++ "]").data

/-- The last `n` elements of a list, in original order: what `tail -n` keeps. -/
def lastN {α : Type u} (n : Nat) (l : List α) : List α := l.drop (l.length - n)

/-- SD card status extraction (source lines 256-263): grep the downloaded
ruwai logs for lines matching `ruwaicom[pid]` then `SD`, keeping the last 10
matching lines. -/
def sdStatus (pid : String) (logLines : List String) : List String :=
  lastN 10 (logLines.filter (fun l => containsThen l.data (pidMarker pid) "SD".data))

/-- GPS status extraction (source lines 266-275): lines matching
`ruwaicom[pid]` then `GPS_FIX`, last 10. -/
def gpsStatus (pid : String) (logLines : List String) : List String :=
  lastN 10 (logLines.filter (fun l => containsThen l.data (pidMarker pid) "GPS_FIX".data))

/-- UTC status extraction (source lines 277-288): the pattern is
`.*UTC_AVAILABLE` with no process-id fragment (the pid-scoped variant is
commented out on source line 282), so any process's lines match; last 10. -/
def utcStatus (logLines : List String) : List String :=
  lastN 10 (logLines.filter (fun l => containsSeg l.data "UTC_AVAILABLE".data))

/-- Last log-file output extraction (source lines 290-300): lines matching
`ruwaicom[pid]` with no further keyword, last 10. -/
def lastOutput (pid : String) (logLines : List String) : List String :=
  lastN 10 (logLines.filter (fun l => containsSeg l.data (pidMarker pid)))

/-- Observable events of the status-checks section. -/
inductive CheckEvent : Type
  | sizeQuery (cmd : String)
  | sizeReport (kB : Int)
  | wait (seconds : Nat)
  | verdict (isLogging : Bool)
  | statusReport (category : String) (lines : List String)
  | fatalError (msg : String)
deriving DecidableEq

/-- The remote size query of source lines 238 and 241. -/
def duCmd : String := "du -s /home/ruwai/ruwaicom/mseed_tmp | cut -f1"

/-- The four status extractions of source lines 252-300, in program order. -/
def statusEvents (pid : String) (logLines : List String) : List CheckEvent :=
  [CheckEvent.statusReport "SD" (sdStatus pid logLines),
   CheckEvent.statusReport "GPS_FIX" (gpsStatus pid logLines),
   CheckEvent.statusReport "UTC_AVAILABLE" (utcStatus logLines),
   CheckEvent.statusReport "last_output" (lastOutput pid logLines)]

/-- The status-checks section (source lines 234-300) as an event trace: the
activity sampler queries the mseed_tmp size, parses it with int(), reports it,
sleeps 10 seconds, queries and parses again, reports, and logs the verdict
`s1 < s2`; then the four status extractions run.  `out1` and `out2` are the
stdout texts of the two remote du queries.  A ValueError raised by int() is
uncaught in the script, so it aborts the whole run: no later event occurs. -/
def checksSection (out1 out2 pid : String) (logLines : List String) : List CheckEvent :=
  CheckEvent.sizeQuery duCmd ::
    match pyInt out1 with
    | none => [CheckEvent.fatalError "ValueError"]
    | some s1 =>
      CheckEvent.sizeReport s1 :: CheckEvent.wait 10 :: CheckEvent.sizeQuery duCmd ::
        match pyInt out2 with
        | none => [CheckEvent.fatalError "ValueError"]
        | some s2 =>
          CheckEvent.sizeReport s2 :: CheckEvent.verdict (decide (s1 < s2))
            :: statusEvents pid logLines

/-! ## Data download (source lines 334-355) -/

/-- Remote-side effects of the data download section: a directory fetch, a
remote command execution (here only the rm -r deletions), or a message written
to the run log. -/
inductive DlEvent : Type
  | fetchDir (remote : String) (dest : String) (recursive : Bool)
  | execCmd (cmd : String)
  | report (msg : String)
deriving DecidableEq

/-- The statements of the chosen branch of the download if/elif chain (source
lines 342-355), in program order.  An unrecognized option string matches no
branch: the chain has no else, so nothing at all happens and nothing is
logged. -/
def downloadBody (option local_dest : String) : List DlEvent :=
  if option = "0" then
    [DlEvent.report "You chose download option 0:\nContinue without any data download.\n\n"]
  else if option = "1" then
    [DlEvent.fetchDir "/home/ruwai/ruwaicom/mseed_tmp" local_dest false,
     DlEvent.report ("You chose download option 1:\nCurrent mseed_tmp/ directory was downloaded to\n\n" ++ local_dest)]
  else if option = "2" then
    [DlEvent.fetchDir "/media/." local_dest true,
     DlEvent.report ("You chose download option 2:\nAll the log and mseed directories were downloaded to\n\n" ++ local_dest)]
  else if option = "3" then
    [DlEvent.fetchDir "/media/." local_dest true,
     DlEvent.execCmd "rm -r /media/sd/log",
     DlEvent.execCmd "rm -r /media/sd/mseed",
     DlEvent.report ("You chose download option 3:\nAll the log and mseed directories were downloaded to\n\n"
       ++ local_dest ++ "\n\nand the sd card was cleared.")]
  else []

/-- Execute a statement list in order under an oracle saying which events
succeed.  A failing remote operation raises an uncaught exception in the
script, aborting the run: the failing statement is the last one attempted and
nothing after it executes.  The Bool records whether the run completed. -/
def runBody (ok : DlEvent → Bool) : List DlEvent → List DlEvent × Bool
  | [] => ([], true)
  | e :: rest =>
    if ok e then
      let r := runBody ok rest
      (e :: r.1, r.2)
    else ([e], false)

/-- The remote delete commands appearing in a trace. -/
def deletes (tr : List DlEvent) : List DlEvent :=
  tr.filter (fun e =>
    match e with
    | DlEvent.execCmd _ => true
    | _ => false)

/-! ## Helper lemmas -/

theorem lastN_length_le {α : Type u} (n : Nat) (l : List α) : (lastN n l).length ≤ n := by
  simp only [lastN, List.length_drop]
  omega

theorem lastN_sublist {α : Type u} (n : Nat) (l : List α) : List.Sublist (lastN n l) l :=
  List.drop_sublist _ _

theorem mem_lastN {α : Type u} {n : Nat} {l : List α} {x : α} (h : x ∈ lastN n l) : x ∈ l :=
  List.drop_subset _ _ h

theorem mem_lastN_filter {p : String → Bool} {lines : List String} {l : String}
    (h : l ∈ lastN 10 (lines.filter p)) : p l = true :=
  (List.mem_filter.1 (mem_lastN h)).2

theorem lastN_filter_sublist (p : String → Bool) (lines : List String) :
    List.Sublist (lastN 10 (lines.filter p)) lines :=
  (lastN_sublist 10 (lines.filter p)).trans (List.filter_sublist lines)

theorem lastN_filter_eq_nil {p : String → Bool} {lines : List String}
    (h : ∀ l ∈ lines, p l = false) : lastN 10 (lines.filter p) = [] := by
  have hnil : lines.filter p = [] :=
    List.filter_eq_nil_iff.2 (fun a ha => by simp [h a ha])
  rw [hnil]
  rfl

theorem containsSeg_of_suffix {l t pat : List Char} (hsuf : t <:+ l)
    (h : containsSeg t pat = true) : containsSeg l pat = true := by
  simp only [containsSeg, List.any_eq_true] at h ⊢
  obtain ⟨u, hu, hpre⟩ := h
  exact ⟨u, (List.mem_tails u l).2 (((List.mem_tails u t).1 hu).trans hsuf), hpre⟩

theorem containsThen_both {l a b : List Char} (h : containsThen l a b = true) :
    containsSeg l a = true ∧ containsSeg l b = true := by
  simp only [containsThen, List.any_eq_true, Bool.and_eq_true] at h
  obtain ⟨t, ht, hpre, hb⟩ := h
  refine ⟨?_, ?_⟩
  · simp only [containsSeg, List.any_eq_true]
    exact ⟨t, ht, hpre⟩
  · exact containsSeg_of_suffix
      ((List.drop_suffix a.length t).trans ((List.mem_tails t l).1 ht)) hb

theorem dictGet_eq_none_of_ne {m : NetworkMap} {sn : String}
    (h : ∀ p ∈ m, sn ≠ p.1) : dictGet m sn = none := by
  induction m with
  | nil => rfl
  | cons hd tl ih =>
    obtain ⟨k2, v⟩ := hd
    simp only [dictGet, if_neg (h (k2, v) (List.mem_cons_self _ _))]
    exact ih fun p hp => h p (List.mem_cons_of_mem _ hp)

theorem serial_whitespace_no_key {sn : String} (hws : sn.data.any Char.isWhitespace = true) :
    ∀ p ∈ networks, dictGet p.2 sn = none := by
  have hkeys : ∀ p ∈ networks, ∀ q ∈ p.2, q.1.data.all (fun c => !c.isWhitespace) = true := by
    decide
  intro p hp
  apply dictGet_eq_none_of_ne
  intro q hq he
  have hall := hkeys p hp q hq
  rw [← he, List.all_eq_true] at hall
  rw [List.any_eq_true] at hws
  obtain ⟨c, hc, hcw⟩ := hws
  have := hall c hc
  rw [hcw] at this
  cases this

/-! ## Claim theorems -/

/-- Claim C1: in the FULL_MEDIA_COPY_AND_WIPE tier (operator selection "3"),
the branch body lists the recursive fetch of /media/. strictly before the two
rm -r delete commands, every delete appearing in an executed trace implies the
fetch succeeded, and when the fetch fails the trace stops at the fetch with
zero delete commands sent. -/
theorem wipe_only_after_fetch (d : String) (ok : DlEvent → Bool) :
    downloadBody "3" d
      = [DlEvent.fetchDir "/media/." d true,
         DlEvent.execCmd "rm -r /media/sd/log",
         DlEvent.execCmd "rm -r /media/sd/mseed",
         DlEvent.report ("You chose download option 3:\nAll the log and mseed directories were downloaded to\n\n"
           ++ d ++ "\n\nand the sd card was cleared.")] ∧
    (ok (DlEvent.fetchDir "/media/." d true) = false →
      (runBody ok (downloadBody "3" d)).1 = [DlEvent.fetchDir "/media/." d true] ∧
      deletes (runBody ok (downloadBody "3" d)).1 = []) ∧
    (∀ e ∈ deletes (runBody ok (downloadBody "3" d)).1,
      ok (DlEvent.fetchDir "/media/." d true) = true) := by
  have hbody : downloadBody "3" d
      = [DlEvent.fetchDir "/media/." d true,
         DlEvent.execCmd "rm -r /media/sd/log",
         DlEvent.execCmd "rm -r /media/sd/mseed",
         DlEvent.report ("You chose download option 3:\nAll the log and mseed directories were downloaded to\n\n"
           ++ d ++ "\n\nand the sd card was cleared.")] := by
    simp [downloadBody]
  have hfail : ok (DlEvent.fetchDir "/media/." d true) = false →
      (runBody ok (downloadBody "3" d)).1 = [DlEvent.fetchDir "/media/." d true] := by
    intro h
    rw [hbody]
    simp [runBody, h]
  refine ⟨hbody, fun h => ⟨hfail h, by rw [hfail h]; rfl⟩, ?_⟩
  intro e he
  cases hok : ok (DlEvent.fetchDir "/media/." d true) with
  | true => rfl
  | false =>
    rw [hfail hok] at he
    simp [deletes] at he

/-- Witness for C1: with an oracle failing every remote operation, option "3"
sends zero delete commands. -/
theorem wipe_only_after_fetch_witness :
    deletes (runBody (fun _ => false) (downloadBody "3" "/tmp/archive")).1 = [] :=
  ((wipe_only_after_fetch "/tmp/archive" (fun _ => false)).2.1 rfl).2

/-- Claim C2 counterexample: on the remote listing of the claim, the filter of
source line 216 keeps exactly ["ruwai.log", "ruwai.log.1"]; "ruwaicom.txt" is
NOT copied, because its segment before the first dot is "ruwaicom", not
"ruwai", refuting the claimed copy list. -/
theorem logs_filter_example_counterexample :
    logsFilter ["ruwai.log", "ruwai.log.1", "system.log", "ruwaicom.txt"]
      = ["ruwai.log", "ruwai.log.1"] ∧
    "ruwaicom.txt" ∉ logsFilter ["ruwai.log", "ruwai.log.1", "system.log", "ruwaicom.txt"] ∧
    firstSegment "ruwaicom.txt" = "ruwaicom" := by decide

/-- Claim C2 (amended): the harvester selects exactly the entries whose
segment before the first "." equals "ruwai"; on the listing of the claim
exactly ["ruwai.log", "ruwai.log.1"] are copied, each fetched from /var/log/
into the log destination preserving its name. -/
theorem logs_filter_first_segment (all_logs : List String) (f : String) :
    (f ∈ logsFilter all_logs ↔ f ∈ all_logs ∧ firstSegment f = "ruwai") ∧
    harvest ["ruwai.log", "ruwai.log.1", "system.log", "ruwaicom.txt"] "dest"
      = [("/var/log/ruwai.log", "dest/ruwai.log"),
         ("/var/log/ruwai.log.1", "dest/ruwai.log.1")] := by
  constructor
  · simp [logsFilter, List.mem_filter]
  · decide

/-- Witness for C2: the selection rule applied through the theorem at a
concrete entry whose first segment is "ruwai". -/
theorem logs_filter_first_segment_witness :
    "ruwai.conf" ∈ logsFilter ["ruwai.conf"] :=
  (logs_filter_first_segment ["ruwai.conf"] "ruwai.conf").1.mpr (by decide)

/-- Claim C3 counterexample: with serial "X" registered in both NetA (first)
and NetB (second), the lookup loop returns the LAST matching pair
("NetB", "S2"), not the first matching pair ("NetA", "S1"): the loop has no
break, so later matches overwrite earlier ones. -/
theorem lookup_duplicate_counterexample :
    lookupStation [("NetA", [("X", "S1")]), ("NetB", [("X", "S2")])] "X" = ("NetB", "S2") ∧
    registryMatches [("NetA", [("X", "S1")]), ("NetB", [("X", "S2")])] "X"
      = [("NetA", "S1"), ("NetB", "S2")] ∧
    (("NetB", "S2") : String × String) ≠ ("NetA", "S1") := by decide

/-- Claim C3 (amended): when the same serial appears in more than one network
map, the lookup returns the LAST matching (network, station) pair in registry
iteration order (and the sentinel pair when there is no match); the loop is a
total fold, so duplicates never crash it. -/
theorem lookup_last_match_wins (registry : Registry) (sn : String) :
    lookupStation registry sn
      = (registryMatches registry sn).getLastD ("unknown_network", "unknown_station") :=
  lookupStation_eq_getLastD registry sn

/-- Claim C4 counterexample: on non-integer du output ("4.0K	/home", as du
prints without the cut filter), int() raises an uncaught ValueError and the
whole session aborts immediately after the first size query: the trace
contains no verdict and no status-extractor event, so the session does NOT
continue to the status-extractor step. -/
theorem sampler_parse_error_counterexample :
    checksSection "4.0K\t/home" "150" "1234" ["a line"]
      = [CheckEvent.sizeQuery duCmd, CheckEvent.fatalError "ValueError"] := by decide

/-- Claim C4 (amended): non-integer or missing output from either remote size
query makes int() raise an uncaught ValueError that aborts the session at that
point: the verdict is skipped and the status-extractor step is never reached
(the trace ends at the fatal error with no statusReport event). -/
theorem sampler_parse_error_aborts (out1 out2 pid : String) (logLines : List String) :
    (pyInt out1 = none →
      checksSection out1 out2 pid logLines
        = [CheckEvent.sizeQuery duCmd, CheckEvent.fatalError "ValueError"]) ∧
    (∀ s1 : Int, pyInt out1 = some s1 → pyInt out2 = none →
      checksSection out1 out2 pid logLines
        = [CheckEvent.sizeQuery duCmd, CheckEvent.sizeReport s1, CheckEvent.wait 10,
           CheckEvent.sizeQuery duCmd, CheckEvent.fatalError "ValueError"]) := by
  constructor
  · intro h
    simp [checksSection, h]
  · intro s1 h1 h2
    simp [checksSection, h1, h2]

/-- Witness for C4 (amended): concrete malformed first output. -/
theorem sampler_parse_error_aborts_witness :
    checksSection "total" "150" "9" []
      = [CheckEvent.sizeQuery duCmd, CheckEvent.fatalError "ValueError"] :=
  (sampler_parse_error_aborts "total" "150" "9" []).1 (by decide)

/-- Claim C5 counterexample: for the unrecognized selection "4" the download
if/elif chain matches no branch and has no else, so the trace is empty: no
fetch and no delete, but also NO log message at all — the run log does not
record it as an unrecognized option, unlike option "0" which logs its
"Continue without any data download" report. -/
theorem unrecognized_option_counterexample :
    downloadBody "4" "/archive" = [] ∧
    downloadBody "0" "/archive"
      = [DlEvent.report "You chose download option 0:\nContinue without any data download.\n\n"] := by
  decide

/-- Claim C5 (amended): every selection other than "0", "1", "2", "3" is a
silent no-op: no remote fetch, no remote delete, and no run-log message of any
kind, so it is NOT distinguishable in the log from doing nothing; the
deliberate option "0" does log its no-download report. -/
theorem unrecognized_option_silent (opt d : String)
    (h0 : opt ≠ "0") (h1 : opt ≠ "1") (h2 : opt ≠ "2") (h3 : opt ≠ "3") :
    downloadBody opt d = [] ∧
    downloadBody "0" d
      = [DlEvent.report "You chose download option 0:\nContinue without any data download.\n\n"] := by
  constructor
  · simp [downloadBody, h0, h1, h2, h3]
  · simp [downloadBody]

/-- Witness for C5 (amended): the concrete unrecognized selection "4". -/
theorem unrecognized_option_silent_witness :
    downloadBody "4" "/data" = [] :=
  (unrecognized_option_silent "4" "/data" (by decide) (by decide) (by decide) (by decide)).1

/-- Claim C6 counterexample: the serial read from the device is used as the
lookup key without any trimming, so the serial " 00006" (the registered serial
"00006" with leading whitespace) resolves to the sentinel pair and NOT to its
registered pair ("SBK_stations", "OBS"). -/
theorem serial_whitespace_counterexample :
    lookupStation networks " 00006" = ("unknown_network", "unknown_station") ∧
    lookupStation networks "00006" = ("SBK_stations", "OBS") := by decide

/-- Claim C6 (amended): the serial string from the remote query is used
untrimmed as the registry lookup key; since no registered serial contains
whitespace, any raw serial containing a whitespace character matches no
registry entry and resolves to the sentinel pair instead of its registered
pair. -/
theorem serial_not_trimmed (sn : String) (hws : sn.data.any Char.isWhitespace = true) :
    lookupStation networks sn = ("unknown_network", "unknown_station") := by
  rw [lookupStation_eq_getLastD,
    registryMatches_eq_nil networks sn (serial_whitespace_no_key hws)]
  rfl

/-- Witness for C6 (amended): the whitespace-padded registered serial. -/
theorem serial_not_trimmed_witness :
    lookupStation networks "00006 " = ("unknown_network", "unknown_station") :=
  serial_not_trimmed "00006 " (by decide)

/-- Claim C7: in a registry where each serial appears in at most one network
map, looking up a registered serial returns exactly its registered
(network, station) pair, and looking up a serial absent from every network map
returns the sentinel pair; the lookup is a total function, so neither case
aborts the session. -/
theorem resolve_registered_and_sentinel (registry : Registry) (sn : String)
    (huniq : (registryMatches registry sn).length ≤ 1) :
    (∀ p ∈ registry, ∀ st : String, dictGet p.2 sn = some st →
      lookupStation registry sn = (p.1, st)) ∧
    ((∀ p ∈ registry, dictGet p.2 sn = none) →
      lookupStation registry sn = ("unknown_network", "unknown_station")) := by
  constructor
  · intro p hp st hst
    have hmem : (p.1, st) ∈ registryMatches registry sn := by
      simp only [registryMatches, List.mem_filterMap]
      exact ⟨p, hp, by simp [hst]⟩
    have hone : registryMatches registry sn = [(p.1, st)] := by
      rcases hlist : registryMatches registry sn with _ | ⟨x, _ | ⟨y, rest⟩⟩
      · rw [hlist] at hmem
        cases hmem
      · rw [hlist] at hmem
        rw [← List.mem_singleton.1 hmem]
      · rw [hlist] at huniq
        simp at huniq
    rw [lookupStation_eq_getLastD, hone]
    rfl
  · intro h
    rw [lookupStation_eq_getLastD, registryMatches_eq_nil registry sn h]
    rfl

/-- Witness for C7: the sample registry resolves "00006" to
("SBK_stations", "OBS") and the unregistered "ZZZZZ" to the sentinel pair. -/
theorem resolve_registered_and_sentinel_witness :
    lookupStation networks "00006" = ("SBK_stations", "OBS") ∧
    lookupStation networks "ZZZZZ" = ("unknown_network", "unknown_station") :=
  ⟨(resolve_registered_and_sentinel networks "00006" (by decide)).1
      ("SBK_stations", SBK_stations) (by decide) "OBS" (by decide),
   (resolve_registered_and_sentinel networks "ZZZZZ" (by decide)).2 (by decide)⟩

/-- Claim C8: phase input "1" suffixes the station directory with "_1_BEX",
"2" with "_2_AEX", any other input leaves it unsuffixed, and for serial
"00006" resolved against the registry with phase "1" on 2024-03-01 the archive
destination is cwd/2024/SBK_stations/sr20240301/OBS_sn_00006_1_BEX. -/
theorem archive_path_structure (cwd station sn opt : String)
    (hno1 : opt ≠ "1") (hno2 : opt ≠ "2") :
    stDir station sn "1" = station ++ "_sn_" ++ sn ++ "_1_BEX" ∧
    stDir station sn "2" = station ++ "_sn_" ++ sn ++ "_2_AEX" ∧
    stDir station sn opt = station ++ "_sn_" ++ sn ∧
    localDest cwd "2024" (lookupStation networks "00006").1
        (lookupStation networks "00006").2 "00006" "1" "20240301"
      = cwd ++ "/2024/SBK_stations/sr20240301/OBS_sn_00006_1_BEX" := by
  refine ⟨by simp [stDir], by simp [stDir], by simp [stDir, hno1, hno2], ?_⟩
  have hid : lookupStation networks "00006" = ("SBK_stations", "OBS") := by decide
  rw [hid]
  simp only [localDest, srDir, stDir, String.append_assoc]
  rfl

/-- Witness for C8: the end-to-end path at a concrete working directory and an
unrecognized phase input "x" for the unsuffixed case. -/
theorem archive_path_structure_witness :
    stDir "OBS" "00006" "x" = "OBS" ++ "_sn_" ++ "00006" ∧
    localDest "/base" "2024" (lookupStation networks "00006").1
        (lookupStation networks "00006").2 "00006" "1" "20240301"
      = "/base" ++ "/2024/SBK_stations/sr20240301/OBS_sn_00006_1_BEX" :=
  ⟨(archive_path_structure "/base" "OBS" "00006" "x" (by decide) (by decide)).2.2.1,
   (archive_path_structure "/base" "OBS" "00006" "x" (by decide) (by decide)).2.2.2⟩

/-- Claim C9: when both du outputs parse, the activity sampler trace is
exactly two size queries of the same mseed_tmp command separated by exactly
one 10-second wait, both raw samples are reported, and the verdict is active
precisely when the second sample strictly exceeds the first. -/
theorem activity_sampler_trace (out1 out2 pid : String) (logLines : List String)
    (s1 s2 : Int) (h1 : pyInt out1 = some s1) (h2 : pyInt out2 = some s2) :
    checksSection out1 out2 pid logLines
      = CheckEvent.sizeQuery duCmd :: CheckEvent.sizeReport s1 :: CheckEvent.wait 10 ::
          CheckEvent.sizeQuery duCmd :: CheckEvent.sizeReport s2 ::
            CheckEvent.verdict (decide (s1 < s2)) :: statusEvents pid logLines ∧
    (decide (s1 < s2) = true ↔ s1 < s2) := by
  refine ⟨?_, by simp⟩
  simp [checksSection, h1, h2]

/-- Witness for C9: samples 100 then 150 give an active verdict, 150 then 100
and 100 then 100 give inactive verdicts. -/
theorem activity_sampler_trace_witness :
    checksSection "100" "150" "77" []
      = CheckEvent.sizeQuery duCmd :: CheckEvent.sizeReport 100 :: CheckEvent.wait 10 ::
          CheckEvent.sizeQuery duCmd :: CheckEvent.sizeReport 150 ::
            CheckEvent.verdict true :: statusEvents "77" [] ∧
    checksSection "150" "100" "77" []
      = CheckEvent.sizeQuery duCmd :: CheckEvent.sizeReport 150 :: CheckEvent.wait 10 ::
          CheckEvent.sizeQuery duCmd :: CheckEvent.sizeReport 100 ::
            CheckEvent.verdict false :: statusEvents "77" [] ∧
    checksSection "100" "100" "77" []
      = CheckEvent.sizeQuery duCmd :: CheckEvent.sizeReport 100 :: CheckEvent.wait 10 ::
          CheckEvent.sizeQuery duCmd :: CheckEvent.sizeReport 100 ::
            CheckEvent.verdict false :: statusEvents "77" [] :=
  ⟨(activity_sampler_trace "100" "150" "77" [] 100 150 (by decide) (by decide)).1,
   (activity_sampler_trace "150" "100" "77" [] 150 100 (by decide) (by decide)).1,
   (activity_sampler_trace "100" "100" "77" [] 100 100 (by decide) (by decide)).1⟩

/-- Claim C10: the storage-media, satellite-time-fix and generic last-output
extractions only return lines containing the process marker built from the
logger pid (plus the category keyword where one exists), while the clock-sync
extraction matches the keyword with no process qualifier (a single line
containing UTC_AVAILABLE is returned whatever process wrote it); each category
returns at most the last 10 matching lines as a sublist of the input (original
order), and when nothing matches the result is the empty list, not an
error. -/
theorem status_extractor_scoping (pid : String) (lines : List String) :
    ((sdStatus pid lines).length ≤ 10 ∧ List.Sublist (sdStatus pid lines) lines ∧
      ∀ l ∈ sdStatus pid lines,
        containsSeg l.data (pidMarker pid) = true ∧ containsSeg l.data "SD".data = true) ∧
    ((gpsStatus pid lines).length ≤ 10 ∧ List.Sublist (gpsStatus pid lines) lines ∧
      ∀ l ∈ gpsStatus pid lines,
        containsSeg l.data (pidMarker pid) = true ∧ containsSeg l.data "GPS_FIX".data = true) ∧
    ((lastOutput pid lines).length ≤ 10 ∧ List.Sublist (lastOutput pid lines) lines ∧
      ∀ l ∈ lastOutput pid lines, containsSeg l.data (pidMarker pid) = true) ∧
    ((utcStatus lines).length ≤ 10 ∧ List.Sublist (utcStatus lines) lines ∧
      (∀ l ∈ utcStatus lines, containsSeg l.data "UTC_AVAILABLE".data = true) ∧
      ∀ l : String, containsSeg l.data "UTC_AVAILABLE".data = true → utcStatus [l] = [l]) ∧
    ((∀ l ∈ lines, containsThen l.data (pidMarker pid) "SD".data = false) →
      sdStatus pid lines = []) ∧
    ((∀ l ∈ lines, containsThen l.data (pidMarker pid) "GPS_FIX".data = false) →
      gpsStatus pid lines = []) ∧
    ((∀ l ∈ lines, containsSeg l.data "UTC_AVAILABLE".data = false) →
      utcStatus lines = []) ∧
    ((∀ l ∈ lines, containsSeg l.data (pidMarker pid) = false) →
      lastOutput pid lines = []) := by
  refine ⟨⟨lastN_length_le _ _, lastN_filter_sublist _ _, ?_⟩,
    ⟨lastN_length_le _ _, lastN_filter_sublist _ _, ?_⟩,
    ⟨lastN_length_le _ _, lastN_filter_sublist _ _, ?_⟩,
    ⟨lastN_length_le _ _, lastN_filter_sublist _ _, ?_, ?_⟩,
    fun h => lastN_filter_eq_nil h, fun h => lastN_filter_eq_nil h,
    fun h => lastN_filter_eq_nil h, fun h => lastN_filter_eq_nil h⟩
  · intro l hl
    exact containsThen_both (mem_lastN_filter hl)
  · intro l hl
    exact containsThen_both (mem_lastN_filter hl)
  · intro l hl
    exact mem_lastN_filter hl
  · intro l hl
    exact mem_lastN_filter hl
  · intro l hl
    simp [utcStatus, lastN, hl]

/-- Witness for C10: a pid-scoped SD line is returned with its marker and
keyword, and a clock-sync line with no process marker at all is still
returned. -/
theorem status_extractor_scoping_witness :
    containsSeg ("Jan 1 ruwaicom[77]: SD card error").data (pidMarker "77") = true ∧
    containsSeg ("Jan 1 ruwaicom[77]: SD card error").data "SD".data = true ∧
    utcStatus ["Jan 1 gpsd: UTC_AVAILABLE"] = ["Jan 1 gpsd: UTC_AVAILABLE"] := by
  have h1 := (status_extractor_scoping "77" ["Jan 1 ruwaicom[77]: SD card error"]).1.2.2
    "Jan 1 ruwaicom[77]: SD card error" (by decide)
  have h2 := (status_extractor_scoping "77" ["Jan 1 gpsd: UTC_AVAILABLE"]).2.2.2.1.2.2.2
    "Jan 1 gpsd: UTC_AVAILABLE" (by decide)
  exact ⟨h1.1, h1.2, h2⟩

end RuwaiCheck
